import Mathlib

/-!
# Verification of gitui's background-job and event-multiplexing substrate

Shallow embedding of the relevant parts of the repository:

* `src/src/components/syntax_text.rs` — the syntax-highlight consumer
  (`SyntaxTextComponent`): freshness check, busy query, file loading.
* `src/src/main.rs` — the consumer loop (`run_app`), the event multiplexer
  (`select_event`) and the spinner fast path.
* `src/src/components/textinput.rs` — the text-input widget's cursor
  operations, modelled byte-accurately over UTF-8.
* `src/asyncgit/src/lib.rs` — the repository-side notification enum.

Parts of the repository that the claims depend on but that are not among
the staged source files (`asyncjob.rs`, `spinner.rs`, `watcher.rs`,
`app.rs`, `string_utils.rs`, `ui/syntaxtext.rs`) are modelled from the
specification; each such definition carries a doc comment starting with
`Modelled from the spec:`.
-/

set_option autoImplicit false

namespace Gitui

/-- Mirror of `itertools::Either`, used by `SyntaxTextComponent` to hold
either highlighted content or a plain string. -/
inductive Either (α β : Type) where
  | left (a : α)
  | right (b : β)
deriving DecidableEq, Repr

/-- Modelled from the spec: `ui::SyntaxText` (in `ui/syntaxtext.rs`, not
under `src/`). Per §3 a job's result carries the entity it describes —
here the file path (`SyntaxText::path()`) — plus the highlighted payload,
abstracted as a string. -/
structure SyntaxText where
  path : String
  raw : String
deriving DecidableEq, Repr

/-- Modelled from the spec: `ui::AsyncSyntaxJob` (not under `src/`).
Per §3, a job owns a snapshot of its input parameters: the file content
and the file path. -/
structure AsyncSyntaxJob where
  content : String
  path : String
deriving DecidableEq, Repr

/-- Modelled from the spec: a completed job's result, produced exactly
once at completion and describing the entity (file path) of the job's
input snapshot. `job.result()` in `syntax_text.rs` line 84. -/
def AsyncSyntaxJob.result (j : AsyncSyntaxJob) : Option SyntaxText :=
  some { path := j.path, raw := j.content }

/-- Modelled from the spec: `asyncgit::ProgressPercent` (not under
`src/`) — the optional progress indicator of §3. -/
structure ProgressPercent where
  progress : Nat
deriving DecidableEq, Repr

/-- `ProgressPercent::empty()`. -/
def ProgressPercent.empty : ProgressPercent := { progress := 0 }

/-- Modelled from the spec: `asyncgit::asyncjob::AsyncSingleJob` (not
under `src/`), the Job Slot of §3/§4.1: it owns at most one in-flight job
(`current`) and at most one unconsumed completed result
(`pendingResult`), plus the last reported progress. -/
structure AsyncSingleJob where
  current : Option AsyncSyntaxJob
  pendingResult : Option AsyncSyntaxJob
  progressVal : Option ProgressPercent
deriving DecidableEq, Repr

/-- Modelled from the spec: `spawn(input)` — spawning a new job
unconditionally replaces `current` and discards any `pending_result`
still unconsumed (§3 invariants; a slot never queues two generations). -/
def AsyncSingleJob.spawn (s : AsyncSingleJob) (j : AsyncSyntaxJob) :
    AsyncSingleJob :=
  { s with current := some j, pendingResult := none }

/-- Modelled from the spec: `is_pending()` — true iff a job is currently
executing and has not yet completed (§4.1). -/
def AsyncSingleJob.is_pending (s : AsyncSingleJob) : Bool :=
  s.current.isSome

/-- Modelled from the spec: `take_last()` (the spec's `take_result()`,
§4.1) — non-blocking; removes and returns the unconsumed completed
result, or nothing if none is ready. -/
def AsyncSingleJob.take_last (s : AsyncSingleJob) :
    Option AsyncSyntaxJob × AsyncSingleJob :=
  (s.pendingResult, { s with pendingResult := none })

/-- Modelled from the spec: `poll_progress()` (§4.1). -/
def AsyncSingleJob.progress (s : AsyncSingleJob) : Option ProgressPercent :=
  s.progressVal

/-- Modelled from the spec: the background worker finishes the current
job; its completed value is handed over through the slot (§5 ownership
transfer) and the slot stops being pending. -/
def AsyncSingleJob.completeCurrent (s : AsyncSingleJob) : AsyncSingleJob :=
  { s with current := none, pendingResult := s.current }

/-- Modelled from the spec: a job that was superseded before finishing is
still allowed to write its result into `pending_result` (§3: "must still
be allowed to be written into `pending_result` by the background
worker"); the slot's `current` job is unaffected. -/
def AsyncSingleJob.completeStale (s : AsyncSingleJob)
    (j : AsyncSyntaxJob) : AsyncSingleJob :=
  { s with pendingResult := some j }

/-- `SyntaxHighlightProgress` from `main.rs` lines 88-91. -/
inductive SyntaxHighlightProgress where
  | Progress
  | Done
deriving DecidableEq, Repr

/-- `AsyncAppNotification` from `main.rs` lines 94-97. -/
inductive AsyncAppNotification where
  | SyntaxHighlighting (p : SyntaxHighlightProgress)
deriving DecidableEq, Repr

/-- `AsyncNotification` from `asyncgit/src/lib.rs` lines 60-84, imported
by `main.rs` as `AsyncGitNotification`. -/
inductive AsyncGitNotification where
  | FinishUnchanged
  | Status
  | Diff
  | Log
  | CommitFiles
  | Tags
  | Push
  | PushTags
  | Fetch
  | Blame
  | SyntaxHighlighting
deriving DecidableEq, Repr

/-- `AsyncNotification` from `main.rs` lines 100-105. -/
inductive AsyncNotification where
  | App (a : AsyncAppNotification)
  | Git (g : AsyncGitNotification)
deriving DecidableEq, Repr

/-- Modelled from the spec: `string_utils::tabs_to_spaces` is not under
`src/`; the spec treats it as part of the out-of-scope widget layer, so
it is modelled as a fixed pure content transformation (tab expansion).
No claim depends on its exact behaviour. -/
def tabs_to_spaces (s : String) : String :=
  s.replace "\t" "    "

/-- `SyntaxTextComponent` from `syntax_text.rs` lines 34-43, restricted
to the fields the verified operations read or write (`repo`,
`key_config`, `paragraph_state` and `theme` are collaborator handles
that `update`/`load_file`/`any_work_pending`/`clear` never inspect). -/
structure SyntaxTextComponent where
  current_file : Option (String × Either SyntaxText String)
  async_highlighting : AsyncSingleJob
  syntax_progress : Option ProgressPercent
  focused : Bool
deriving DecidableEq, Repr

/-- `SyntaxTextComponent::update` from `syntax_text.rs` lines 66-94: on
`Done`, clear the progress display, take the completed job from the slot
and apply its result to `current_file` only when the path the result
describes equals the path of the currently loaded file. -/
def SyntaxTextComponent.update (c : SyntaxTextComponent)
    (ev : AsyncNotification) : SyntaxTextComponent :=
  match ev with
  | .App (.SyntaxHighlighting .Progress) =>
    { c with syntax_progress := c.async_highlighting.progress }
  | .App (.SyntaxHighlighting .Done) =>
    let c1 := { c with syntax_progress := none }
    match c1.async_highlighting.take_last with
    | (some job, slot) =>
      let c2 := { c1 with async_highlighting := slot }
      match c2.current_file with
      | some (path, _) =>
        match job.result with
        | some syn =>
          if syn.path = path then
            { c2 with current_file := some (path, Either.left syn) }
          else c2
        | none => c2
      | none => c2
    | (none, slot) => { c1 with async_highlighting := slot }
  | .Git _ => c

/-- `SyntaxTextComponent::any_work_pending` from `syntax_text.rs` lines
97-99. -/
def SyntaxTextComponent.any_work_pending (c : SyntaxTextComponent) : Bool :=
  c.async_highlighting.is_pending

/-- `SyntaxTextComponent::clear` from `syntax_text.rs` lines 102-104. -/
def SyntaxTextComponent.clear (c : SyntaxTextComponent) :
    SyntaxTextComponent :=
  { c with current_file := none }

/-- `SyntaxTextComponent::load_file` from `syntax_text.rs` lines
107-142. `fileContent` stands for the outcome of the external
repository call `sync::tree_file_content(&self.repo.borrow(), item)`
(§6: an opaque synchronous collaborator call), with the error already
formatted by `format!("{}", e)`. -/
def SyntaxTextComponent.load_file (c : SyntaxTextComponent) (path : String)
    (fileContent : Except String String) : SyntaxTextComponent :=
  let already_loaded :=
    (c.current_file.map (fun current_file => current_file.1 == path)).getD
      false
  if already_loaded then c
  else
    match fileContent with
    | .ok content =>
      let content := tabs_to_spaces content
      { c with
        syntax_progress := some ProgressPercent.empty
        async_highlighting :=
          c.async_highlighting.spawn { content := content, path := path }
        current_file := some (path, Either.right content) }
    | .error e =>
      { c with
        current_file :=
          some (path, Either.right ("error loading file: " ++ e)) }

/-- The text the component renders, from the `draw` implementation in
`syntax_text.rs` lines 197-203: the highlighted payload when present,
otherwise the plain (or diagnostic) string, and the empty string when no
file is loaded. -/
def SyntaxTextComponent.drawText (c : SyntaxTextComponent) : String :=
  match c.current_file with
  | none => ""
  | some (_, Either.left syn) => syn.raw
  | some (_, Either.right s) => s

/-- The path of the currently loaded file. -/
def SyntaxTextComponent.currentPath (c : SyntaxTextComponent) :
    Option String :=
  c.current_file.map Prod.fst

/-! ## The consumer loop of `main.rs` -/

/-- Modelled from the spec: `input::InputState` (`input.rs` is not under
`src/`); `main.rs` line 209 only distinguishes `Polling`. -/
inductive InputState where
  | Polling
  | Paused
deriving DecidableEq, Repr

/-- Modelled from the spec: `input::InputEvent` (`input.rs` is not under
`src/`) — a user-input event, either a state change of the input thread
or an input with its native payload (abstracted as a number; the
consumer loop never inspects it). -/
inductive InputEvent where
  | State (s : InputState)
  | Input (payload : Nat)
deriving DecidableEq, Repr

/-- `QueueEvent` from `main.rs` lines 80-85. -/
inductive QueueEvent where
  | Notify
  | SpinnerUpdate
  | AsyncEvent (e : AsyncNotification)
  | InputEvent (e : InputEvent)
deriving DecidableEq, Repr

/-- Modelled from the spec: `spinner.rs` is not under `src/`. The
spinner owns a glyph-frame counter and the stored busy flag (§4.3 / the
glossary's "busy indicator"); `update` advances the glyph frame,
`set_state` stores the busy flag, and drawing reads both. -/
structure Spinner where
  idx : Nat
  pending : Bool
deriving DecidableEq, Repr

/-- Modelled from the spec: `Spinner::update` advances the glyph frame
only; its signature takes no application state, so it cannot consult any
slot. -/
def Spinner.update (s : Spinner) : Spinner :=
  { s with idx := s.idx + 1 }

/-- Modelled from the spec: `Spinner::set_state` stores the busy flag. -/
def Spinner.set_state (s : Spinner) (b : Bool) : Spinner :=
  { s with pending := b }

/-- The outcome of `oper.recv(rx)` on the channel the multiplexer
selected: a value, or the channel is disconnected (its producer thread
died), in which case crossbeam's `recv` returns an error. -/
inductive RecvResult (α : Type) where
  | ok (a : α)
  | disconnected
deriving DecidableEq, Repr

/-- The five receivers `select_event` multiplexes (`main.rs` lines
286-299): user input, git-job notifications, app-job notifications, the
debounced watcher signal, and the spinner ticker (its `Instant` payload
is dropped by the loop, so it is modelled as `Unit`). -/
structure Channels where
  rx_input : RecvResult InputEvent
  rx_git : RecvResult AsyncGitNotification
  rx_app : RecvResult AsyncAppNotification
  rx_notify : RecvResult Unit
  rx_spinner : RecvResult Unit
deriving DecidableEq, Repr

/-- How `select_event` fails: a selected receiver was disconnected
(`oper.recv` returned an error, propagated by `?`), or the selected
index was out of range (`bail!("unknown select source")`). -/
inductive SelectError where
  | recvDisconnected
  | unknownSource
deriving DecidableEq, Repr

/-- `select_event` from `main.rs` lines 286-318. `index` is the ready
operation chosen by `Select::select()` — the choice among simultaneously
ready sources is the collaborator's (§4.4 requires no strict fairness) —
and each arm maps the received value into a `QueueEvent`, propagating a
receive error with `?`. -/
def select_event (index : Nat) (ch : Channels) :
    Except SelectError QueueEvent :=
  match index with
  | 0 =>
    match ch.rx_input with
    | .ok e => .ok (.InputEvent e)
    | .disconnected => .error .recvDisconnected
  | 1 =>
    match ch.rx_git with
    | .ok e => .ok (.AsyncEvent (.Git e))
    | .disconnected => .error .recvDisconnected
  | 2 =>
    match ch.rx_app with
    | .ok e => .ok (.AsyncEvent (.App e))
    | .disconnected => .error .recvDisconnected
  | 3 =>
    match ch.rx_notify with
    | .ok _ => .ok .Notify
    | .disconnected => .error .recvDisconnected
  | 4 =>
    match ch.rx_spinner with
    | .ok _ => .ok .SpinnerUpdate
    | .disconnected => .error .recvDisconnected
  | _ => .error .unknownSource

/-- Whether the receiver that `select_event` would read at `index` is
disconnected. -/
def Channels.disconnectedAt (ch : Channels) : Nat → Prop
  | 0 => ch.rx_input = .disconnected
  | 1 => ch.rx_git = .disconnected
  | 2 => ch.rx_app = .disconnected
  | 3 => ch.rx_notify = .disconnected
  | 4 => ch.rx_spinner = .disconnected
  | _ => False

/-- Modelled from the spec: the application methods `run_app` invokes
(`app.rs` is not under `src/`). The loop treats the Orchestrator as
opaque — it only calls these operations (§4.5, §6 "exposed to
collaborators") — so the loop theorems are stated for every
implementation of this interface. -/
structure AppOps (α : Type) where
  event : α → InputEvent → α
  update : α → α
  update_async : α → AsyncNotification → α
  any_work_pending : α → Bool
  is_quit : α → Bool

/-- The consumer-loop state of `run_app` (`main.rs` lines 181-239): the
application, the spinner, the `first_update` bootstrap flag, and how
many times the blocking multiplexer has been invoked (the cursor into
the stream of multiplexer outcomes). -/
structure LoopState (α : Type) where
  app : α
  spinner : Spinner
  first_update : Bool
  muxCalls : Nat

/-- What one iteration of the consumer loop did: which event it
processed, whether it called the blocking multiplexer, and which parts
of the pipeline ran (`app.event` / `app.update` / `app.update_async`,
the full terminal draw of line 230, `spinner.update`,
`spinner.set_state`, `spinner.draw`). -/
structure IterEffects where
  called_select : Bool
  event : QueueEvent
  ran_app_event : Bool
  ran_app_update : Bool
  ran_app_update_async : Bool
  ran_full_draw : Bool
  ran_spinner_update : Bool
  ran_set_spinner_state : Bool
  ran_spinner_draw : Bool
deriving DecidableEq, Repr

/-- One iteration of the `loop` in `run_app` (`main.rs` lines 184-239),
returning the new state, the observable effects, and whether
`app.is_quit()` ended the loop. `mux` is the stream of outcomes of the
blocking `select_event` calls; a receive failure propagates out of the
loop through `?` (line 195). The very first iteration short-circuits to
`QueueEvent::Notify` (lines 185-187); a `SpinnerUpdate` event takes the
fast path of lines 199-203 (`spinner.update(); spinner.draw(); continue`)
which runs neither the app pipeline, nor the full draw, nor
`spinner.set_state`, nor the quit check. `loop_body` is the body of
lines 198-238 given the event; `loop_epilogue` is its shared ordinary
tail (lines 230-236: full draw, `set_state(any_work_pending())`,
spinner draw, quit check), taking the already-stepped application and
the three flags recording which of `app.event` / `app.update` /
`app.update_async` ran; `run_iteration` below adds the event
acquisition of lines 185-196. -/
def loop_epilogue {α : Type} (ops : AppOps α) (st1 : LoopState α)
    (called : Bool) (ev : QueueEvent)
    (stepped : α × Bool × Bool × Bool) :
    LoopState α × IterEffects × Bool :=
  let app1 := stepped.1
  let spinner1 := st1.spinner.set_state (ops.any_work_pending app1)
  ({ st1 with app := app1, spinner := spinner1 },
    { called_select := called, event := ev
      ran_app_event := stepped.2.1, ran_app_update := stepped.2.2.1
      ran_app_update_async := stepped.2.2.2, ran_full_draw := true
      ran_spinner_update := false, ran_set_spinner_state := true
      ran_spinner_draw := true },
    ops.is_quit app1)

/-- See the doc comment above `loop_epilogue`: the per-event body. -/
def loop_body {α : Type} (ops : AppOps α) (st1 : LoopState α)
    (called : Bool) (ev : QueueEvent) : LoopState α × IterEffects × Bool :=
  match ev with
  | .SpinnerUpdate =>
    ({ st1 with spinner := st1.spinner.update },
      { called_select := called, event := ev
        ran_app_event := false, ran_app_update := false
        ran_app_update_async := false, ran_full_draw := false
        ran_spinner_update := true, ran_set_spinner_state := false
        ran_spinner_draw := true },
      false)
  | .InputEvent ie =>
    loop_epilogue ops st1 called ev (ops.event st1.app ie, true, false,
      false)
  | .Notify =>
    loop_epilogue ops st1 called ev (ops.update st1.app, false, true,
      false)
  | .AsyncEvent e =>
    loop_epilogue ops st1 called ev
      (if e = .Git .FinishUnchanged then (st1.app, false, false, false)
       else (ops.update_async st1.app e, false, false, true))

/-- See `loop_body` for the per-event processing; `run_iteration` adds
the event acquisition of lines 185-196. -/
def run_iteration {α : Type} (ops : AppOps α)
    (mux : Nat → Except SelectError QueueEvent) (st : LoopState α) :
    Except SelectError (LoopState α × IterEffects × Bool) :=
  if st.first_update then
    .ok (loop_body ops { st with first_update := false } false
      QueueEvent.Notify)
  else
    match mux st.muxCalls with
    | .ok ev =>
      .ok (loop_body ops { st with muxCalls := st.muxCalls + 1 } true ev)
    | .error e => .error e

/-- The consumer loop itself, observed for `fuel` iterations: it stops
with `ok` when `app.is_quit()` (or the observation window) ends it, and
with `error` when an iteration's `select_event` fails. -/
def run_loop {α : Type} (ops : AppOps α)
    (mux : Nat → Except SelectError QueueEvent) :
    Nat → LoopState α → Except SelectError (LoopState α)
  | 0, st => .ok st
  | fuel + 1, st =>
    match run_iteration ops mux st with
    | .error e => .error e
    | .ok (st1, _, quit) =>
      if quit then .ok st1 else run_loop ops mux fuel st1

/-- Modelled from the spec: an `AppOps` instance for an application
whose only slot owner is the syntax-highlight component — the one
component present under `src/` (`app.rs`, which aggregates the others,
is not). Used to exhibit concrete loop traces. -/
def syntaxAppOps : AppOps SyntaxTextComponent :=
  { event := fun c _ => c
    update := fun c => c
    update_async := fun c ev => c.update ev
    any_work_pending := SyntaxTextComponent.any_work_pending
    is_quit := fun _ => false }

/-! ## The debounced watcher -/

/-- Modelled from the spec: §4.2 Debounced Watcher (`watcher.rs` is not
under `src/`). Trailing-edge debounce over the time-ordered list of raw
filesystem-event timestamps: every raw event resets the deadline to its
own time plus the debounce window, and the externally visible signal
fires whenever a deadline is reached with no intervening reset. The
result is the list of emission times. -/
def debounce_signals (window : Nat) : List Nat → List Nat
  | [] => []
  | [t] => [t + window]
  | t1 :: t2 :: ts =>
    if t2 < t1 + window then debounce_signals window (t2 :: ts)
    else (t1 + window) :: debounce_signals window (t2 :: ts)

/-! ## The text-input component (`textinput.rs`)

The widget's `msg` is a Rust `String` (UTF-8 bytes) indexed by **byte**
positions, while several of its loops walk `msg.chars()` with **char**
indices; to keep that distinction the message is embedded as a list of
characters and byte arithmetic uses `Char.utf8Size`. Rust operations
that can panic (`String::insert`/`String::remove` off a char boundary,
`usize` subtraction overflow) return `Option`, `none` standing for a
panic; the raw `while !is_char_boundary { cursor += 1 }` loops, which
diverge in Rust when the cursor is past the end, are given `byteLen + 1`
fuel and also return `none` when the fuel runs out (which the proofs
show cannot happen from an in-range start). The `log()` debug helper
only appends to a file and is not modelled. -/

/-- The widget's message: a UTF-8 string as its list of characters. -/
abbrev Msg := List Char

/-- The byte length of the message (Rust `String::len`). -/
def byteLen : Msg → Nat
  | [] => 0
  | c :: cs => c.utf8Size + byteLen cs

/-- Rust `str::is_char_boundary`: true at 0, at the total byte length,
and at the first byte of every character; false inside a character's
byte sequence and past the end. -/
def is_char_boundary : Msg → Nat → Bool
  | _, 0 => true
  | [], _ + 1 => false
  | c :: cs, i + 1 =>
    if i + 1 < c.utf8Size then false
    else is_char_boundary cs (i + 1 - c.utf8Size)

/-- Insertion of a character at a byte index that is a char boundary
(the guarded core of `String::insert`). -/
def insertCore : Msg → Nat → Char → Msg
  | m, 0, c => c :: m
  | [], _ + 1, c => [c]
  | d :: ds, i + 1, c => d :: insertCore ds (i + 1 - d.utf8Size) c

/-- Rust `String::insert`: panics (`none`) unless the byte index is a
char boundary (which also bounds it by the length). -/
def rust_insert (m : Msg) (i : Nat) (c : Char) : Option Msg :=
  if is_char_boundary m i then some (insertCore m i c) else none

/-- Removal of the character starting at a byte index (the guarded core
of `String::remove`). -/
def removeCore : Msg → Nat → Msg
  | [], _ => []
  | _ :: ds, 0 => ds
  | d :: ds, i + 1 => d :: removeCore ds (i + 1 - d.utf8Size)

/-- Rust `String::remove`: panics (`none`) unless the byte index is a
char boundary strictly inside the string. -/
def rust_remove (m : Msg) (i : Nat) : Option Msg :=
  if is_char_boundary m i = true ∧ i < byteLen m then some (removeCore m i)
  else none

/-- Rust `usize` subtraction (`-=`): overflow panics (`none`). -/
def rust_sub (a b : Nat) : Option Nat :=
  if b ≤ a then some (a - b) else none

/-- The loop of `decr_cursor` (`textinput.rs` lines 203-206):
`while index > 0 && !is_char_boundary(index) { index -= 1 }`. -/
def prevBoundary (m : Msg) : Nat → Nat
  | 0 => 0
  | i + 1 =>
    if is_char_boundary m (i + 1) then i + 1 else prevBoundary m i

/-- The loops `while !is_char_boundary(cursor) { cursor += 1 }` of
`line_up_cursor` (lines 309-311) and `line_down_cursor` (lines
416-419): fuelled; `none` models the divergence that occurs in Rust
when no boundary is ever reached. -/
def bumpToBoundary (m : Msg) : Nat → Nat → Option Nat
  | 0, i => if is_char_boundary m i then some i else none
  | fuel + 1, i =>
    if is_char_boundary m i then some i else bumpToBoundary m fuel (i + 1)

/-- The loop of `next_char_position` (lines 647-651):
`while index < len && !is_char_boundary(index) { index += 1 }`; it
always terminates, and `byteLen` fuel always suffices. -/
def ncpLoop (m : Msg) : Nat → Nat → Nat
  | 0, i => i
  | fuel + 1, i =>
    if i < byteLen m ∧ ¬is_char_boundary m i = true then
      ncpLoop m fuel (i + 1)
    else i

/-- `InputType` from `textinput.rs` lines 30-35. -/
inductive InputType where
  | Singleline
  | Multiline
  | Password
deriving DecidableEq, Repr

/-- `TextInputComponent` from `textinput.rs` lines 38-53, restricted to
the fields its cursor/text operations read or write; `frame_height`
models `self.frame_height.get()` and `area_height` models
`self.current_area.get().height as usize` (both are `Cell`s the draw
code refreshes). `title`, `default_msg`, `show_char_count`, `theme`
and `key_config` are display-only collaborator data. -/
structure TextInputComponent where
  msg : Msg
  cursor_position : Nat
  input_type : InputType
  visible : Bool
  cur_line : Nat
  scroll_top : Nat
  scroll_max : Nat
  frame_height : Nat
  area_height : Nat
deriving DecidableEq, Repr

/-- `TextInputComponent::next_char_position` from lines 642-653. -/
def TextInputComponent.next_char_position (s : TextInputComponent) :
    Option Nat :=
  if s.cursor_position ≥ byteLen s.msg then none
  else some (ncpLoop s.msg (byteLen s.msg) (s.cursor_position + 1))

/-- `TextInputComponent::incr_cursor_multiline` from lines 160-175:
scroll bookkeeping only (note it reads `chars().nth(cursor_position)`,
a char index, with the byte-valued cursor — embedded as written). -/
def TextInputComponent.incr_cursor_multiline (s : TextInputComponent) :
    TextInputComponent :=
  if s.msg.get? s.cursor_position = some '\n' then
    let s1 := { s with cur_line := s.cur_line + 1 }
    if s1.cur_line - s1.scroll_top > s1.frame_height - 3 then
      { s1 with scroll_top := s1.scroll_top + 1 }
    else s1
  else s

/-- `TextInputComponent::incr_cursor` from lines 178-187. -/
def TextInputComponent.incr_cursor (s : TextInputComponent) :
    TextInputComponent :=
  match s.next_char_position with
  | some pos =>
    let s1 :=
      if s.input_type = .Multiline then s.incr_cursor_multiline else s
    { s1 with cursor_position := pos }
  | none => s

/-- `TextInputComponent::decr_cursor_multiline` from lines 190-199:
scroll bookkeeping only. -/
def TextInputComponent.decr_cursor_multiline (s : TextInputComponent)
    (index : Nat) : TextInputComponent :=
  if s.msg.get? index = some '\n' then
    let s1 := { s with cur_line := s.cur_line - 1 }
    if s1.cur_line < s1.scroll_top then
      { s1 with scroll_top := s1.scroll_top - 1 }
    else s1
  else s

/-- `TextInputComponent::decr_cursor` from lines 202-213. -/
def TextInputComponent.decr_cursor (s : TextInputComponent) :
    TextInputComponent :=
  let index := prevBoundary s.msg (s.cursor_position - 1)
  let s1 := { s with cursor_position := index }
  if s1.input_type = .Multiline then s1.decr_cursor_multiline index else s1

/-- The running line bookmarks of `line_up_cursor`'s scan (lines
231-274). -/
structure UpAcc where
  top : Nat
  middle : Nat
  bottom : Nat
deriving DecidableEq, Repr

/-- The `for (i, c) in msg.chars().enumerate()` scan of
`line_up_cursor` (lines 234-274), with its break-time adjustment; `i`
is a char index while `msg.len()` is the byte length — embedded exactly
as the source mixes them. -/
def lineUpScan (msg : Msg) (cursor : Nat) : Nat → Msg → UpAcc → UpAcc
  | _, [], acc => acc
  | i, c :: rest, acc =>
    let acc1 : UpAcc :=
      if c = '\n' then { top := acc.middle, middle := acc.bottom, bottom := i }
      else acc
    if i ≥ cursor ∨ i = byteLen msg - 1 then
      if c ≠ '\n' ∧ msg.getLast? ≠ some '\n' ∧ i > acc1.bottom then
        { top := acc1.middle, middle := acc1.bottom
          bottom := byteLen msg - 1 }
      else if c = '\n' ∧ i = byteLen msg - 1 then
        { top := acc1.middle, middle := acc1.bottom
          bottom := acc1.bottom }
      else if msg.get? acc1.top = some '\n' ∧ msg.get? acc1.middle = some '\n'
          ∧ acc1.bottom ≠ cursor then
        { top := acc1.middle, middle := acc1.bottom
          bottom := acc1.bottom }
      else if acc1.top = 0 then
        { top := acc1.middle, middle := acc1.bottom
          bottom := acc1.bottom }
      else acc1
    else lineUpScan msg cursor (i + 1) rest acc1

/-- `TextInputComponent::line_up_cursor` from lines 217-319 (the
commented-out earlier drafts in the file are ignored): scan, cursor
re-arithmetic, the boundary-fixing `while`, then line/scroll
bookkeeping. -/
def TextInputComponent.line_up_cursor (s : TextInputComponent) :
    Option TextInputComponent :=
  let acc := lineUpScan s.msg s.cursor_position 0 s.msg
    { top := 0, middle := 0, bottom := 0 }
  let cursor1 :=
    if acc.middle - acc.top = 1 ∧ s.cursor_position ≠ acc.middle then
      acc.middle
    else
      let cursor_position_in_line := s.cursor_position - acc.middle
      let cp := acc.top + cursor_position_in_line
      if acc.top = 0 then cp - 1 else cp
  match bumpToBoundary s.msg (byteLen s.msg + 1) cursor1 with
  | none => none
  | some cursor2 =>
    let s1 := { s with cursor_position := cursor2
                       cur_line := s.cur_line - 1 }
    some (if s1.cur_line < s1.scroll_top then
      { s1 with scroll_top := s1.scroll_top - 1 }
    else s1)

/-- The running line bookmarks of `line_down_cursor`'s scan (lines
328-377); `ble` (`bottom_line_end`) is never written by the source and
is omitted. -/
structure DownAcc where
  tls : Nat
  tle : Nat
  mls : Nat
  mle : Nat
  bls : Nat
  dropCount : Nat
deriving DecidableEq, Repr

/-- The `for (i, c) in msg.chars().enumerate()` scan of
`line_down_cursor` (lines 339-377): on each newline the bookmarks shift
and `drop_count` increments once the newline's char index reaches the
cursor; the loop breaks when `drop_count == 2`. -/
def lineDownScan (cursor : Nat) : Nat → Msg → DownAcc → DownAcc
  | _, [], acc => acc
  | i, c :: rest, acc =>
    let acc1 : DownAcc :=
      if c = '\n' then
        { tls := acc.mls, tle := acc.mle, mls := acc.bls, mle := i - 1
          bls := i
          dropCount :=
            if i ≥ cursor then acc.dropCount + 1 else acc.dropCount }
      else acc
    if acc1.dropCount = 2 then acc1
    else lineDownScan cursor (i + 1) rest acc1

/-- `TextInputComponent::line_down_cursor` from lines 321-442: scan,
cursor re-arithmetic, then either the boundary-fixing `while` (when the
new cursor is below the byte length) or the fallback
`cursor = msg.len().saturating_sub(1)` — which can land inside a
multi-byte character — then line/scroll bookkeeping. -/
def TextInputComponent.line_down_cursor (s : TextInputComponent) :
    Option TextInputComponent :=
  let acc := lineDownScan s.cursor_position 0 s.msg
    { tls := 0, tle := 0, mls := 0, mle := 0, bls := 0, dropCount := 0 }
  let cursor_position_in_line := s.cursor_position - acc.tls
  let cp := acc.mls + cursor_position_in_line
  let cursor2? : Option Nat :=
    if cp < byteLen s.msg then bumpToBoundary s.msg (byteLen s.msg + 1) cp
    else some (byteLen s.msg - 1)
  match cursor2? with
  | none => none
  | some cursor2 =>
    let s1 := { s with cursor_position := cursor2 }
    some (if s1.cur_line < s1.scroll_max - 2 then
      let s2 := { s1 with cur_line := s1.cur_line + 1 }
      if s2.cur_line > s2.scroll_top + (s2.area_height - 3) then
        { s2 with scroll_top := s2.scroll_top + 1 }
      else s2
    else s1)

/-- `TextInputComponent::insert_new_line` from lines 107-126
(`BORDER_SIZE = 1`). -/
def TextInputComponent.insert_new_line (s : TextInputComponent) :
    Option TextInputComponent :=
  match rust_insert s.msg s.cursor_position '\n' with
  | none => none
  | some m =>
    let s1 := TextInputComponent.incr_cursor { s with msg := m }
    let s2 := { s1 with scroll_max := s1.scroll_max + 1 }
    some (if s2.scroll_max < s2.frame_height - 2 then
      { s2 with scroll_top := s2.scroll_top - 1 }
    else s2)

/-- `TextInputComponent::multiline_backspace` from lines 656-670: note
the unchecked `self.scroll_max -= 1`, which panics (`none`) when
`scroll_max` is zero — reachable because `set_text` does not reset
`scroll_max`. -/
def TextInputComponent.multiline_backspace (s : TextInputComponent) :
    Option TextInputComponent :=
  if s.msg.get? s.cursor_position = some '\n' then
    match rust_sub s.scroll_max 1 with
    | none => none
    | some sm =>
      let s1 := { s with scroll_max := sm }
      some (if ¬(s1.scroll_max < s1.frame_height - 2 ∧ 3 ≤ s1.scroll_max)
        then { s1 with scroll_top := s1.scroll_top - 1 }
        else s1)
  else some s

/-- `TextInputComponent::backspace` from lines 672-682. -/
def TextInputComponent.backspace (s : TextInputComponent) :
    Option TextInputComponent :=
  if s.cursor_position > 0 then
    let s1 := s.decr_cursor
    match
      (if s1.input_type = .Multiline then s1.multiline_backspace
       else some s1) with
    | none => none
    | some s2 =>
      match rust_remove s2.msg s2.cursor_position with
      | none => none
      | some m => some { s2 with msg := m }
  else some s

/-- `TextInputComponent::delete_key_multiline` from lines 685-700. The
source tests `msg.get(cursor..cursor) == Some("\n")`: an empty slice —
`Some("")` when the cursor is a char boundary, `None` otherwise — never
equals `Some("\n")`, so the scroll adjustment is dead code; the
condition is embedded as written. -/
def TextInputComponent.delete_key_multiline (s : TextInputComponent) :
    TextInputComponent :=
  let slice : Option Msg :=
    if is_char_boundary s.msg s.cursor_position then some [] else none
  if slice = some ['\n'] then
    let s1 := { s with scroll_max := s.scroll_max - 1 }
    if s1.scroll_max < s1.scroll_top + (s1.frame_height - 2) then
      { s1 with scroll_top := s1.scroll_top - 1 }
    else s1
  else s

/-- `TextInputComponent::delete_key` from lines 703-708. -/
def TextInputComponent.delete_key (s : TextInputComponent) :
    Option TextInputComponent :=
  let s1 :=
    if s.input_type = .Multiline then s.delete_key_multiline else s
  match rust_remove s1.msg s1.cursor_position with
  | none => none
  | some m => some { s1 with msg := m }

/-- `TextInputComponent::set_text` from lines 711-714. -/
def TextInputComponent.set_text (s : TextInputComponent) (msg : Msg) :
    TextInputComponent :=
  { s with msg := msg, cursor_position := 0 }

/-- `TextInputComponent::clear` from lines 91-94. -/
def TextInputComponent.clear (s : TextInputComponent) :
    TextInputComponent :=
  { s with msg := [], cursor_position := 0 }

/-- The key codes the `event` handler of lines 955-1022 distinguishes
(crossterm's `KeyCode`, restricted to the handled arms plus a catch-all
`other`). -/
inductive KeyCode where
  | char (c : Char)
  | delete
  | backspace
  | left
  | right
  | up
  | down
  | home
  | endKey
  | enter
  | esc
  | other
deriving DecidableEq, Repr

/-- A key event: code plus the CONTROL modifier the handler tests. -/
structure KeyEvt where
  code : KeyCode
  ctrl : Bool
deriving DecidableEq, Repr

/-- Modelled from the spec: the two key bindings `event` consults
(`keys.rs` is not under `src/`; key-binding configuration is §1
out-of-scope); kept abstract as two designated key events. -/
structure KeyConfig where
  exit_popup : KeyEvt
  enter : KeyEvt
deriving DecidableEq, Repr

/-- `EventState` of the component trait. -/
inductive EventState where
  | Consumed
  | NotConsumed
deriving DecidableEq, Repr

/-- `TextInputComponent::event` from lines 955-1022 (the
`Component::event` implementation): exit-popup hides; the configured
enter key inserts a newline in multiline mode; a non-CONTROL character
is inserted at the cursor; Delete removes at the cursor when not at the
end; Backspace/Left/Right/Up/Down/Home/End move or edit as in the
source (Up/Down only in multiline mode); everything else is not
consumed. `none` models a panic inside the handler. -/
def TextInputComponent.event (s : TextInputComponent) (cfg : KeyConfig)
    (e : KeyEvt) : Option (TextInputComponent × EventState) :=
  if s.visible then
    if e = cfg.exit_popup then
      some ({ s with visible := false }, .Consumed)
    else if e = cfg.enter ∧ s.input_type = .Multiline then
      match s.insert_new_line with
      | none => none
      | some s1 => some (s1, .Consumed)
    else
      match e.code with
      | .char c =>
        if ¬e.ctrl then
          match rust_insert s.msg s.cursor_position c with
          | none => none
          | some m =>
            some (TextInputComponent.incr_cursor { s with msg := m },
              .Consumed)
        else some (s, .NotConsumed)
      | .delete =>
        if s.cursor_position < byteLen s.msg then
          match s.delete_key with
          | none => none
          | some s1 => some (s1, .Consumed)
        else some (s, .Consumed)
      | .backspace =>
        match s.backspace with
        | none => none
        | some s1 => some (s1, .Consumed)
      | .left => some (s.decr_cursor, .Consumed)
      | .right => some (s.incr_cursor, .Consumed)
      | .up =>
        if s.input_type = .Multiline then
          match s.line_up_cursor with
          | none => none
          | some s1 => some (s1, .Consumed)
        else some (s, .NotConsumed)
      | .down =>
        if s.input_type = .Multiline then
          match s.line_down_cursor with
          | none => none
          | some s1 => some (s1, .Consumed)
        else some (s, .NotConsumed)
      | .home => some ({ s with cursor_position := 0 }, .Consumed)
      | .endKey =>
        some ({ s with cursor_position := byteLen s.msg }, .Consumed)
      | _ => some (s, .NotConsumed)
  else some (s, .NotConsumed)

/-- The cursor invariant of C10: the byte cursor never exceeds the
message's byte length and always sits on a UTF-8 character boundary
(the first conjunct is implied by the second; both are stated because
the claim names both). -/
def cursorInv (s : TextInputComponent) : Prop :=
  s.cursor_position ≤ byteLen s.msg
    ∧ is_char_boundary s.msg s.cursor_position = true

instance (s : TextInputComponent) : Decidable (cursorInv s) :=
  inferInstanceAs (Decidable (_ ∧ _))

/-! ## Theorems for the syntax-highlight component -/

/-- C1: a completed highlight result is applied to the displayed content
only when the path it describes equals the path of the currently loaded
file, and is discarded otherwise; in particular, in the scenario
load(A) → load(B) (A ≠ B) → A's worker finishes late → consume, the
displayed content reflects B (still pending for B) and never A. -/
theorem highlight_stale_result_never_applied :
    (∀ (c : SyntaxTextComponent) (p : String)
        (cnt : Either SyntaxText String) (j : AsyncSyntaxJob),
        c.current_file = some (p, cnt) →
        c.async_highlighting.pendingResult = some j →
        (c.update (.App (.SyntaxHighlighting .Done))).current_file =
          (if j.path = p then
            some (p, Either.left { path := j.path, raw := j.content })
           else some (p, cnt)))
    ∧ (∀ (c0 : SyntaxTextComponent) (a b ca cb : String) (j : AsyncSyntaxJob),
        a ≠ b → c0.currentPath ≠ some a →
        ((c0.load_file a (.ok ca)).async_highlighting.current = some j →
          ((((c0.load_file a (.ok ca)).load_file b (.ok cb)).update
              (.App (.SyntaxHighlighting .Done))).current_file =
                some (b, Either.right (tabs_to_spaces cb))
            ∧ ({ (c0.load_file a (.ok ca)).load_file b (.ok cb) with
                  async_highlighting :=
                    ((c0.load_file a (.ok ca)).load_file b
                      (.ok cb)).async_highlighting.completeStale j
                  : SyntaxTextComponent }.update
                (.App (.SyntaxHighlighting .Done))).current_file =
                  some (b, Either.right (tabs_to_spaces cb))))) := by
  constructor
  · intro c p cnt j hfile hpend
    simp only [SyntaxTextComponent.update, AsyncSingleJob.take_last, hpend,
      hfile, AsyncSyntaxJob.result]
    split <;> simp
  · intro c0 a b ca cb j hab hnot hj
    have hload1 : (c0.load_file a (.ok ca)).current_file =
        some (a, Either.right (tabs_to_spaces ca)) := by
      rcases hcf : c0.current_file with _ | ⟨q, cnt⟩
      · simp [SyntaxTextComponent.load_file, hcf]
      · have hqa : q ≠ a := by
          intro h
          exact hnot (by simp [SyntaxTextComponent.currentPath, hcf, h])
        simp [SyntaxTextComponent.load_file, hcf, hqa]
    have hjob : j = { content := tabs_to_spaces ca, path := a } := by
      rcases hcf : c0.current_file with _ | ⟨q, cnt⟩
      · simp [SyntaxTextComponent.load_file, hcf,
          AsyncSingleJob.spawn] at hj
        exact hj.symm
      · have hqa : q ≠ a := by
          intro h
          exact hnot (by simp [SyntaxTextComponent.currentPath, hcf, h])

        simp [SyntaxTextComponent.load_file, hcf, hqa,
          AsyncSingleJob.spawn] at hj
        exact hj.symm
    have hba : (a == b) = false := by
      simpa using hab
    generalize hc1 : c0.load_file a (.ok ca) = c1 at hload1 hj ⊢
    have hload2 : c1.load_file b (.ok cb) =
        { c1 with
            syntax_progress := some ProgressPercent.empty
            async_highlighting :=
              c1.async_highlighting.spawn
                { content := tabs_to_spaces cb, path := b }
            current_file := some (b, Either.right (tabs_to_spaces cb)) } := by
      simp [SyntaxTextComponent.load_file, hload1, hba]
    rw [hload2]
    subst hjob
    constructor
    · simp [SyntaxTextComponent.update, AsyncSingleJob.take_last,
        AsyncSingleJob.spawn]
    · simp [SyntaxTextComponent.update, AsyncSingleJob.take_last,
        AsyncSingleJob.completeStale, AsyncSingleJob.spawn,
        AsyncSyntaxJob.result, hab]

/-- Witness for C1 at a concrete component: current file "b", a stale
completed result for path "a" waiting in the slot; consuming it leaves
the displayed pair for "b" untouched. -/
theorem highlight_stale_result_never_applied_witness :
    (SyntaxTextComponent.update
      { current_file := some ("b", Either.right "x")
        async_highlighting :=
          { current := none
            pendingResult := some { content := "ca", path := "a" }
            progressVal := none }
        syntax_progress := none
        focused := false }
      (.App (.SyntaxHighlighting .Done))).current_file =
      some ("b", Either.right "x") := by
  have h := highlight_stale_result_never_applied.1
    { current_file := some ("b", Either.right "x")
      async_highlighting :=
        { current := none
          pendingResult := some { content := "ca", path := "a" }
          progressVal := none }
      syntax_progress := none
      focused := false }
    "b" (Either.right "x") { content := "ca", path := "a" } rfl rfl
  simpa using h

/-- C5: consuming a slot's completed result is one-shot: right after a
completion the first take returns the result, a second take without an
intervening completion returns nothing, and taking when nothing is ready
returns nothing (the operation is a total function — it never blocks). -/
theorem take_last_one_shot (s t : AsyncSingleJob) (j : AsyncSyntaxJob)
    (hc : s.current = some j) (ht : t.pendingResult = none) :
    (s.completeCurrent.take_last).1 = some j
    ∧ (((s.completeCurrent.take_last).2.take_last)).1 = none
    ∧ (t.take_last).1 = none := by
  simp [AsyncSingleJob.completeCurrent, AsyncSingleJob.take_last, hc, ht]

/-- Witness for C5 at a concrete slot holding one running job. -/
theorem take_last_one_shot_witness :
    ((AsyncSingleJob.take_last
      (AsyncSingleJob.completeCurrent
        { current := some { content := "c", path := "p" }
          pendingResult := none
          progressVal := none })).1 =
        some { content := "c", path := "p" }) ∧
    ((AsyncSingleJob.take_last
      (AsyncSingleJob.take_last
        (AsyncSingleJob.completeCurrent
          { current := some { content := "c", path := "p" }
            pendingResult := none
            progressVal := none })).2).1 = none) := by
  have h := take_last_one_shot
    { current := some { content := "c", path := "p" }
      pendingResult := none
      progressVal := none }
    { current := none, pendingResult := none, progressVal := none }
    { content := "c", path := "p" } rfl rfl
  exact ⟨h.1, h.2.1⟩

/-- C7: when reading the file's content fails, `load_file` stores the
diagnostic string in place of the expected content, renders it, does not
spawn a highlight job, and returns normally (it is a total function). -/
theorem load_file_error_is_rendered (c : SyntaxTextComponent)
    (path e : String)
    (h : (c.current_file.map
      (fun current_file => current_file.1 == path)).getD false = false) :
    (c.load_file path (.error e)).current_file =
      some (path, Either.right ("error loading file: " ++ e))
    ∧ (c.load_file path (.error e)).drawText = "error loading file: " ++ e
    ∧ (c.load_file path (.error e)).async_highlighting =
        c.async_highlighting := by
  simp [SyntaxTextComponent.load_file, h, SyntaxTextComponent.drawText]

/-- Witness for C7 with an empty component and a concrete read error. -/
theorem load_file_error_is_rendered_witness :
    (SyntaxTextComponent.load_file
      { current_file := none
        async_highlighting :=
          { current := none, pendingResult := none, progressVal := none }
        syntax_progress := none
        focused := false }
      "f.rs" (.error "io error")).drawText =
        "error loading file: io error" := by
  have h := load_file_error_is_rendered
    { current_file := none
      async_highlighting :=
        { current := none, pendingResult := none, progressVal := none }
      syntax_progress := none
      focused := false }
    "f.rs" "io error" rfl
  exact h.2.1

/-- C9: loading the path that is already the currently loaded file is a
no-op — the whole component state (content, progress, pending highlight
job) is returned unchanged, whatever the new read outcome would be. -/
theorem load_file_idempotent (c : SyntaxTextComponent) (path : String)
    (r : Except String String) (h : c.currentPath = some path) :
    c.load_file path r = c := by
  rcases hcf : c.current_file with _ | ⟨q, cnt⟩
  · simp [SyntaxTextComponent.currentPath, hcf] at h
  · have hq : q = path := by
      simpa [SyntaxTextComponent.currentPath, hcf] using h
    simp [SyntaxTextComponent.load_file, hcf, hq]

/-- Witness for C9: re-loading the already-loaded "f.rs" changes
nothing. -/
theorem load_file_idempotent_witness :
    SyntaxTextComponent.load_file
      { current_file := some ("f.rs", Either.right "body")
        async_highlighting :=
          { current := none, pendingResult := none, progressVal := none }
        syntax_progress := none
        focused := false }
      "f.rs" (.ok "other") =
      { current_file := some ("f.rs", Either.right "body")
        async_highlighting :=
          { current := none, pendingResult := none, progressVal := none }
        syntax_progress := none
        focused := false } :=
  load_file_idempotent
    { current_file := some ("f.rs", Either.right "body")
      async_highlighting :=
        { current := none, pendingResult := none, progressVal := none }
      syntax_progress := none
      focused := false }
    "f.rs" (.ok "other") rfl

/-! ## Theorems for the consumer loop -/

/-- C2: the very first iteration of the consumer loop produces the
full-refresh event `QueueEvent::Notify` — driving `app.update` and a
full draw — unconditionally, without calling the blocking multiplexer
(the result is stated for an arbitrary multiplexer stream, including one
that would fail); the `first_update` flag is cleared, and every
subsequent iteration obtains its event from the multiplexer. -/
theorem first_iteration_bootstraps {α : Type} (ops : AppOps α)
    (mux : Nat → Except SelectError QueueEvent) (st : LoopState α) :
    (st.first_update = true →
      run_iteration ops mux st = .ok
        ({ app := ops.update st.app
           spinner :=
             st.spinner.set_state
               (ops.any_work_pending (ops.update st.app))
           first_update := false
           muxCalls := st.muxCalls },
          { called_select := false, event := .Notify
            ran_app_event := false, ran_app_update := true
            ran_app_update_async := false, ran_full_draw := true
            ran_spinner_update := false, ran_set_spinner_state := true
            ran_spinner_draw := true },
          ops.is_quit (ops.update st.app)))
    ∧ (st.first_update = false → ∀ ev, mux st.muxCalls = .ok ev →
        ∃ st1 eff quit,
          run_iteration ops mux st = .ok (st1, eff, quit)
            ∧ eff.called_select = true ∧ eff.event = ev
            ∧ st1.first_update = false
            ∧ st1.muxCalls = st.muxCalls + 1) := by
  constructor
  · intro h
    simp [run_iteration, h, loop_body, loop_epilogue]
  · intro h ev hmux
    refine ⟨(loop_body ops { st with muxCalls := st.muxCalls + 1 } true
        ev).1,
      (loop_body ops { st with muxCalls := st.muxCalls + 1 } true ev).2.1,
      (loop_body ops { st with muxCalls := st.muxCalls + 1 } true
        ev).2.2,
      by simp [run_iteration, h, hmux], ?_, ?_, ?_, ?_⟩
    · cases ev <;> rfl
    · cases ev <;> rfl
    · cases ev <;> exact h
    · cases ev <;> rfl

/-- C2 witness: a concrete bootstrap iteration — the multiplexer stream
always fails, yet the first iteration still produces the full-refresh
event, because it never consults the multiplexer. -/
theorem first_iteration_bootstraps_witness :
    run_iteration syntaxAppOps (fun _ => .error .recvDisconnected)
      { app :=
          { current_file := none
            async_highlighting :=
              { current := none, pendingResult := none
                progressVal := none }
            syntax_progress := none, focused := false }
        spinner := { idx := 0, pending := false }
        first_update := true, muxCalls := 0 } = .ok
      ({ app :=
          { current_file := none
            async_highlighting :=
              { current := none, pendingResult := none
                progressVal := none }
            syntax_progress := none, focused := false }
         spinner := { idx := 0, pending := false }
         first_update := false, muxCalls := 0 },
        { called_select := false, event := .Notify
          ran_app_event := false, ran_app_update := true
          ran_app_update_async := false, ran_full_draw := true
          ran_spinner_update := false, ran_set_spinner_state := true
          ran_spinner_draw := true },
        false) :=
  (first_iteration_bootstraps syntaxAppOps
    (fun _ => .error .recvDisconnected)
    { app :=
        { current_file := none
          async_highlighting :=
            { current := none, pendingResult := none, progressVal := none }
          syntax_progress := none, focused := false }
      spinner := { idx := 0, pending := false }
      first_update := true, muxCalls := 0 }).1 rfl

/-- C3 (amended): on a spinner-tick event the consumer loop takes a fast
path — it advances the spinner glyph and redraws only the spinner, and
runs neither `app.event`, `app.update`, `app.update_async` nor the full
terminal draw; but it does **not** recompute the aggregate busy flag:
`spinner.set_state` is not called, the application state is untouched,
and the stored busy flag is carried over unchanged. -/
theorem spinner_tick_fast_path {α : Type} (ops : AppOps α)
    (mux : Nat → Except SelectError QueueEvent) (st : LoopState α)
    (hfu : st.first_update = false)
    (htick : mux st.muxCalls = .ok .SpinnerUpdate) :
    run_iteration ops mux st = .ok
      ({ app := st.app
         spinner := { idx := st.spinner.idx + 1
                      pending := st.spinner.pending }
         first_update := st.first_update
         muxCalls := st.muxCalls + 1 },
        { called_select := true, event := .SpinnerUpdate
          ran_app_event := false, ran_app_update := false
          ran_app_update_async := false, ran_full_draw := false
          ran_spinner_update := true, ran_set_spinner_state := false
          ran_spinner_draw := true },
        false) := by
  simp [run_iteration, hfu, htick, loop_body, Spinner.update]

/-- C3 witness: a concrete tick iteration taking the fast path. -/
theorem spinner_tick_fast_path_witness :
    run_iteration syntaxAppOps (fun _ => .ok .SpinnerUpdate)
      { app :=
          { current_file := none
            async_highlighting :=
              { current := none, pendingResult := none
                progressVal := none }
            syntax_progress := none, focused := false }
        spinner := { idx := 2, pending := false }
        first_update := false, muxCalls := 7 } = .ok
      ({ app :=
          { current_file := none
            async_highlighting :=
              { current := none, pendingResult := none
                progressVal := none }
            syntax_progress := none, focused := false }
         spinner := { idx := 3, pending := false }
         first_update := false, muxCalls := 8 },
        { called_select := true, event := .SpinnerUpdate
          ran_app_event := false, ran_app_update := false
          ran_app_update_async := false, ran_full_draw := false
          ran_spinner_update := true, ran_set_spinner_state := false
          ran_spinner_draw := true },
        false) :=
  spinner_tick_fast_path syntaxAppOps (fun _ => .ok .SpinnerUpdate)
    { app :=
        { current_file := none
          async_highlighting :=
            { current := none, pendingResult := none, progressVal := none }
          syntax_progress := none, focused := false }
      spinner := { idx := 2, pending := false }
      first_update := false, muxCalls := 7 } rfl rfl

/-- C3 counterexample: the tick path does not recompute the busy flag
from the slots. Concrete trace: an ordinary iteration ran while the
highlight job was still executing, so the stored flag is `true`; the
worker then finished (`completeCurrent`, so no slot has outstanding
work); the following tick iteration leaves the stored flag `true`
although recomputing the aggregate busy flag from all slots yields
`false` — contradicting "on every spinner-tick event … it recomputes
the aggregate busy flag from all slots". -/
theorem spinner_tick_busy_not_recomputed :
    (run_iteration syntaxAppOps (fun _ => .ok .Notify)
        { app :=
            { current_file := none
              async_highlighting :=
                { current := some { content := "c", path := "p" }
                  pendingResult := none, progressVal := none }
              syntax_progress := none, focused := false }
          spinner := { idx := 0, pending := false }
          first_update := false, muxCalls := 0 }).map
        (fun r => r.1.spinner.pending) = .ok true
    ∧ (run_iteration syntaxAppOps (fun _ => .ok .SpinnerUpdate)
        { app :=
            { current_file := none
              async_highlighting :=
                AsyncSingleJob.completeCurrent
                  { current := some { content := "c", path := "p" }
                    pendingResult := none, progressVal := none }
              syntax_progress := none, focused := false }
          spinner := { idx := 1, pending := true }
          first_update := false, muxCalls := 1 }).map
        (fun r =>
          (r.2.1.event, r.1.spinner.pending,
            syntaxAppOps.any_work_pending r.1.app)) =
      .ok (.SpinnerUpdate, true, false) := by
  constructor <;> rfl

/-- C4 (amended): the spinner's busy state is not an invariant tied to
slot contents; it equals `app.any_work_pending()` as sampled at the end
of each ordinary (non-tick) iteration, where it is also redrawn — so the
iteration that consumes the last pending result already sets and draws
it `false`, before the next tick; and for the syntax-highlight slot
`any_work_pending` returns `is_pending` of the single job slot. -/
theorem busy_flag_sampled_each_ordinary_iteration {α : Type}
    (ops : AppOps α) (mux : Nat → Except SelectError QueueEvent)
    (st : LoopState α) (ev : QueueEvent)
    (hfu : st.first_update = false) (hmux : mux st.muxCalls = .ok ev)
    (hord : ev ≠ .SpinnerUpdate) :
    (∃ st1 eff quit,
      run_iteration ops mux st = .ok (st1, eff, quit)
        ∧ st1.spinner.pending = ops.any_work_pending st1.app
        ∧ eff.ran_set_spinner_state = true ∧ eff.ran_spinner_draw = true)
    ∧ ∀ c : SyntaxTextComponent,
        c.any_work_pending = c.async_highlighting.is_pending := by
  constructor
  · refine ⟨(loop_body ops { st with muxCalls := st.muxCalls + 1 } true
        ev).1,
      (loop_body ops { st with muxCalls := st.muxCalls + 1 } true ev).2.1,
      (loop_body ops { st with muxCalls := st.muxCalls + 1 } true
        ev).2.2,
      by simp [run_iteration, hfu, hmux], ?_, ?_, ?_⟩
    · cases ev with
      | Notify => rfl
      | SpinnerUpdate => exact absurd rfl hord
      | AsyncEvent e => rfl
      | InputEvent e => rfl
    · cases ev with
      | Notify => rfl
      | SpinnerUpdate => exact absurd rfl hord
      | AsyncEvent e => rfl
      | InputEvent e => rfl
    · cases ev with
      | Notify => rfl
      | SpinnerUpdate => exact absurd rfl hord
      | AsyncEvent e => rfl
      | InputEvent e => rfl
  · intro c
    rfl

/-- C4 witness: a concrete ordinary iteration whose end-of-iteration
sample turns the indicator off — the highlight job's `Done`
notification is consumed, the slot is no longer pending, and
`set_state` stores `false` in the same iteration. -/
theorem busy_flag_sampled_each_ordinary_iteration_witness :
    ∃ (st1 : LoopState SyntaxTextComponent) (eff : IterEffects)
      (quit : Bool),
      run_iteration syntaxAppOps
        (fun _ => .ok (.AsyncEvent (.App (.SyntaxHighlighting .Done))))
        { app :=
            { current_file := none
              async_highlighting :=
                { current := none
                  pendingResult := some { content := "c", path := "p" }
                  progressVal := none }
              syntax_progress := none, focused := false }
          spinner := { idx := 4, pending := true }
          first_update := false, muxCalls := 3 } = .ok (st1, eff, quit)
        ∧ st1.spinner.pending =
            syntaxAppOps.any_work_pending st1.app
        ∧ eff.ran_set_spinner_state = true
        ∧ eff.ran_spinner_draw = true :=
  (busy_flag_sampled_each_ordinary_iteration syntaxAppOps
    (fun _ => .ok (.AsyncEvent (.App (.SyntaxHighlighting .Done))))
    { app :=
        { current_file := none
          async_highlighting :=
            { current := none
              pendingResult := some { content := "c", path := "p" }
              progressVal := none }
          syntax_progress := none, focused := false }
      spinner := { idx := 4, pending := true }
      first_update := false, muxCalls := 3 }
    (.AsyncEvent (.App (.SyntaxHighlighting .Done))) rfl rfl
    (by simp)).1

/-- C4 counterexample: "the busy indicator's state is true if and only
if at least one slot has an outstanding, not-yet-completed job" is
false: after the highlight worker finished (between iterations) no slot
has an outstanding job, yet at the next tick the indicator still holds
`true` — the stored flag is a sample, stale until the next ordinary
iteration. The first conjunct shows the `true` sample being stored
while the job ran; the second shows the later tick with the flag still
`true` while `is_pending` (and thus `any_work_pending`) is `false`. -/
theorem busy_flag_not_an_invariant :
    (run_iteration syntaxAppOps
        (fun _ => .ok (.AsyncEvent (.Git .Status)))
        { app :=
            { current_file := some ("f", Either.right "body")
              async_highlighting :=
                { current := some { content := "body", path := "f" }
                  pendingResult := none, progressVal := none }
              syntax_progress := none, focused := false }
          spinner := { idx := 9, pending := false }
          first_update := false, muxCalls := 5 }).map
        (fun r => r.1.spinner.pending) = .ok true
    ∧ (run_iteration syntaxAppOps (fun _ => .ok .SpinnerUpdate)
        { app :=
            { current_file := some ("f", Either.right "body")
              async_highlighting :=
                AsyncSingleJob.completeCurrent
                  { current := some { content := "body", path := "f" }
                    pendingResult := none, progressVal := none }
              syntax_progress := none, focused := false }
          spinner := { idx := 10, pending := true }
          first_update := false, muxCalls := 6 }).map
        (fun r =>
          (r.1.spinner.pending,
            r.1.app.async_highlighting.is_pending,
            syntaxAppOps.any_work_pending r.1.app)) =
      .ok (true, false, false) := by
  constructor <;> rfl

/-- C8: if the receiver selected by the multiplexer is disconnected,
`select_event` returns an error (`oper.recv`'s failure propagates
through `?`), and the consumer loop then terminates with that error
instead of continuing. -/
theorem disconnected_channel_is_fatal :
    (∀ (ch : Channels) (i : Nat), ch.disconnectedAt i →
        select_event i ch = .error .recvDisconnected)
    ∧ (∀ (α : Type) (ops : AppOps α)
        (mux : Nat → Except SelectError QueueEvent) (st : LoopState α)
        (fuel : Nat) (e : SelectError),
        st.first_update = false → mux st.muxCalls = .error e →
        run_loop ops mux (fuel + 1) st = .error e) := by
  constructor
  · intro ch i hd
    rcases i with _ | _ | _ | _ | _ | i
    · simp only [Channels.disconnectedAt] at hd
      simp [select_event, hd]
    · simp only [Channels.disconnectedAt] at hd
      simp [select_event, hd]
    · simp only [Channels.disconnectedAt] at hd
      simp [select_event, hd]
    · simp only [Channels.disconnectedAt] at hd
      simp [select_event, hd]
    · simp only [Channels.disconnectedAt] at hd
      simp [select_event, hd]
    · exact absurd hd (by simp [Channels.disconnectedAt])
  · intro α ops mux st fuel e hfu hm
    simp [run_loop, run_iteration, hfu, hm]

/-- C8 witness: the git-notification receiver is disconnected and the
multiplexer happens to select it; the loop run errors out. -/
theorem disconnected_channel_is_fatal_witness :
    select_event 1
      { rx_input := .ok (.State .Polling)
        rx_git := .disconnected
        rx_app := .ok (.SyntaxHighlighting .Done)
        rx_notify := .ok ()
        rx_spinner := .ok () } = .error .recvDisconnected
    ∧ run_loop syntaxAppOps (fun _ => .error .recvDisconnected) 3
        { app :=
            { current_file := none
              async_highlighting :=
                { current := none, pendingResult := none
                  progressVal := none }
              syntax_progress := none, focused := false }
          spinner := { idx := 0, pending := false }
          first_update := false, muxCalls := 0 } =
      .error .recvDisconnected :=
  ⟨disconnected_channel_is_fatal.1
      { rx_input := .ok (.State .Polling)
        rx_git := .disconnected
        rx_app := .ok (.SyntaxHighlighting .Done)
        rx_notify := .ok ()
        rx_spinner := .ok () } 1 rfl,
    disconnected_channel_is_fatal.2 SyntaxTextComponent syntaxAppOps
      (fun _ => .error .recvDisconnected)
      { app :=
          { current_file := none
            async_highlighting :=
              { current := none, pendingResult := none, progressVal := none }
            syntax_progress := none, focused := false }
        spinner := { idx := 0, pending := false }
        first_update := false, muxCalls := 0 } 2 .recvDisconnected rfl
      rfl⟩

/-! ## Theorems for the debounced watcher -/

/-- C6: N ≥ 1 raw filesystem events, each within less than the debounce
window of the previous one, produce exactly one downstream watcher
signal, emitted a full quiet window after the last raw event (which,
the ordering hypothesis being part of the chain, is the latest of
them). -/
theorem debounce_coalesces_burst (window t : Nat) (ts : List Nat)
    (hchain : List.Chain (fun a b => a ≤ b ∧ b < a + window) t ts) :
    debounce_signals window (t :: ts) =
      [(t :: ts).getLast (List.cons_ne_nil t ts) + window]
    ∧ ∀ x ∈ t :: ts, x ≤ (t :: ts).getLast (List.cons_ne_nil t ts) := by
  induction ts generalizing t with
  | nil =>
    refine ⟨rfl, ?_⟩
    intro x hx
    simp only [List.mem_singleton] at hx
    simp [hx]
  | cons t2 ts ih =>
    rcases hchain with _ | ⟨⟨hle, hlt⟩, hchain2⟩
    have h2 := ih t2 hchain2
    have hlast : (t :: t2 :: ts).getLast (List.cons_ne_nil t (t2 :: ts)) =
        (t2 :: ts).getLast (List.cons_ne_nil t2 ts) :=
      List.getLast_cons (List.cons_ne_nil t2 ts)
    constructor
    · rw [debounce_signals, if_pos hlt, h2.1, hlast]
    · intro x hx
      rw [hlast]
      rcases List.mem_cons.mp hx with rfl | hx2
      · exact le_trans hle (h2.2 t2 (List.mem_cons_self t2 ts))
      · exact h2.2 x hx2

/-- C6 witness: five raw events 10 time units apart with a 100-unit
window coalesce into the single signal at time 140. -/
theorem debounce_coalesces_burst_witness :
    debounce_signals 100 [0, 10, 20, 30, 40] = [140] := by
  have h := debounce_coalesces_burst 100 0 [10, 20, 30, 40]
    (by simp [List.chain_cons])
  simpa using h.1

/-! ## Theorems for the text-input component

Helper lemmas about the byte-boundary machinery, then per-operation
invariant lemmas, then the claim theorem. -/

theorem boundary_zero (m : Msg) : is_char_boundary m 0 = true := by
  cases m <;> rfl

theorem boundary_le : ∀ (m : Msg) (i : Nat),
    is_char_boundary m i = true → i ≤ byteLen m := by
  intro m
  induction m with
  | nil =>
    intro i h
    cases i with
    | zero => simp [byteLen]
    | succ j => simp [is_char_boundary] at h
  | cons c cs ih =>
    intro i h
    cases i with
    | zero => exact Nat.zero_le _
    | succ j =>
      simp only [is_char_boundary] at h
      split at h
      · simp at h
      · have h2 := ih _ h
        rename_i hge
        simp only [byteLen]
        omega

theorem boundary_cons_ge (c : Char) (cs : Msg) (i : Nat)
    (h2 : c.utf8Size ≤ i) (h1 : 1 ≤ i) :
    is_char_boundary (c :: cs) i = is_char_boundary cs (i - c.utf8Size) := by
  obtain ⟨j, rfl⟩ : ∃ j, i = j + 1 := ⟨i - 1, by omega⟩
  simp only [is_char_boundary]
  rw [if_neg (by omega)]

theorem boundary_byteLen : ∀ m : Msg,
    is_char_boundary m (byteLen m) = true := by
  intro m
  induction m with
  | nil => rfl
  | cons c cs ih =>
    have hpos := Char.utf8Size_pos c
    rw [byteLen,
      boundary_cons_ge c cs (c.utf8Size + byteLen cs) (by omega) (by omega)]
    simpa using ih

theorem ncpLoop_boundary (m : Msg) :
    ∀ (fuel i : Nat), i ≤ byteLen m → byteLen m ≤ i + fuel →
      is_char_boundary m (ncpLoop m fuel i) = true
        ∧ ncpLoop m fuel i ≤ byteLen m := by
  intro fuel
  induction fuel with
  | zero =>
    intro i h1 h2
    have h3 : i = byteLen m := by omega
    subst h3
    exact ⟨boundary_byteLen m, le_refl _⟩
  | succ fuel ih =>
    intro i h1 h2
    rw [ncpLoop]
    split
    · rename_i hc
      exact ih (i + 1) (by omega) (by omega)
    · rename_i hc
      by_cases hb : is_char_boundary m i = true
      · exact ⟨hb, h1⟩
      · have h4 : ¬i < byteLen m := fun hlt => hc ⟨hlt, hb⟩
        have h5 : i = byteLen m := by omega
        subst h5
        exact ⟨boundary_byteLen m, le_refl _⟩

theorem next_char_position_boundary (s : TextInputComponent) (p : Nat)
    (h : s.next_char_position = some p) :
    is_char_boundary s.msg p = true ∧ p ≤ byteLen s.msg := by
  unfold TextInputComponent.next_char_position at h
  split at h
  · simp at h
  · rename_i hge
    injection h with h
    subst h
    exact ncpLoop_boundary s.msg (byteLen s.msg) (s.cursor_position + 1)
      (by omega) (by omega)

theorem insertCore_boundary : ∀ (m : Msg) (i : Nat) (c : Char),
    is_char_boundary m i = true →
    is_char_boundary (insertCore m i c) i = true := by
  intro m
  induction m with
  | nil =>
    intro i c h
    cases i with
    | zero => exact boundary_zero _
    | succ j => simp [is_char_boundary] at h
  | cons d ds ih =>
    intro i c h
    cases i with
    | zero => exact boundary_zero _
    | succ j =>
      simp only [is_char_boundary] at h
      split at h
      · simp at h
      · rename_i hge
        simp only [insertCore, is_char_boundary]
        rw [if_neg hge]
        exact ih _ c h

theorem removeCore_boundary : ∀ (m : Msg) (i : Nat),
    is_char_boundary m i = true →
    is_char_boundary (removeCore m i) i = true := by
  intro m
  induction m with
  | nil =>
    intro i h
    cases i with
    | zero => exact boundary_zero _
    | succ j => simp [is_char_boundary] at h
  | cons d ds ih =>
    intro i h
    cases i with
    | zero => exact boundary_zero _
    | succ j =>
      simp only [is_char_boundary] at h
      split at h
      · simp at h
      · rename_i hge
        simp only [removeCore, is_char_boundary]
        rw [if_neg hge]
        exact ih _ h

theorem prevBoundary_boundary (m : Msg) :
    ∀ i, is_char_boundary m (prevBoundary m i) = true := by
  intro i
  induction i with
  | zero => exact boundary_zero m
  | succ j ih =>
    rw [prevBoundary]
    split
    · assumption
    · exact ih

theorem bumpToBoundary_boundary (m : Msg) :
    ∀ fuel i q, bumpToBoundary m fuel i = some q →
      is_char_boundary m q = true := by
  intro fuel
  induction fuel with
  | zero =>
    intro i q h
    rw [bumpToBoundary] at h
    split at h
    · injection h with h
      subst h
      assumption
    · cases h
  | succ f ih =>
    intro i q h
    rw [bumpToBoundary] at h
    split at h
    · injection h with h
      subst h
      assumption
    · exact ih _ _ h

theorem rust_insert_some {m : Msg} {i : Nat} {c : Char} {m2 : Msg}
    (h : rust_insert m i c = some m2) :
    is_char_boundary m i = true ∧ m2 = insertCore m i c := by
  unfold rust_insert at h
  split at h
  · rename_i hb
    injection h with h
    exact ⟨hb, h.symm⟩
  · cases h

theorem rust_remove_some {m : Msg} {i : Nat} {m2 : Msg}
    (h : rust_remove m i = some m2) :
    is_char_boundary m i = true ∧ i < byteLen m
      ∧ m2 = removeCore m i := by
  unfold rust_remove at h
  split at h
  · rename_i hb
    injection h with h
    exact ⟨hb.1, hb.2, h.symm⟩
  · cases h

theorem incr_cursor_multiline_fields (s : TextInputComponent) :
    (s.incr_cursor_multiline).msg = s.msg
      ∧ (s.incr_cursor_multiline).cursor_position = s.cursor_position := by
  simp only [TextInputComponent.incr_cursor_multiline]
  split
  · split
    · exact ⟨rfl, rfl⟩
    · exact ⟨rfl, rfl⟩
  · exact ⟨rfl, rfl⟩

theorem decr_cursor_multiline_fields (s : TextInputComponent) (i : Nat) :
    (s.decr_cursor_multiline i).msg = s.msg
      ∧ (s.decr_cursor_multiline i).cursor_position = s.cursor_position := by
  simp only [TextInputComponent.decr_cursor_multiline]
  split
  · split
    · exact ⟨rfl, rfl⟩
    · exact ⟨rfl, rfl⟩
  · exact ⟨rfl, rfl⟩

theorem incr_cursor_inv (s : TextInputComponent) (h : cursorInv s) :
    cursorInv s.incr_cursor ∧ (s.incr_cursor).msg = s.msg := by
  unfold TextInputComponent.incr_cursor
  cases hn : s.next_char_position with
  | none => exact ⟨h, rfl⟩
  | some pos =>
    have hb := next_char_position_boundary s pos hn
    have hmsg :
        (if s.input_type = InputType.Multiline then s.incr_cursor_multiline
         else s).msg = s.msg := by
      split
      · exact (incr_cursor_multiline_fields s).1
      · rfl
    refine ⟨⟨?_, ?_⟩, ?_⟩
    · show pos ≤ byteLen
        (if s.input_type = InputType.Multiline then s.incr_cursor_multiline
         else s).msg
      rw [hmsg]
      exact hb.2
    · show is_char_boundary
        (if s.input_type = InputType.Multiline then s.incr_cursor_multiline
         else s).msg pos = true
      rw [hmsg]
      exact hb.1
    · exact hmsg

theorem decr_cursor_inv (s : TextInputComponent) :
    cursorInv s.decr_cursor ∧ (s.decr_cursor).msg = s.msg
      ∧ (s.decr_cursor).cursor_position =
          prevBoundary s.msg (s.cursor_position - 1) := by
  simp only [TextInputComponent.decr_cursor]
  have hbnd := prevBoundary_boundary s.msg (s.cursor_position - 1)
  split
  · refine ⟨⟨?_, ?_⟩, ?_, ?_⟩
    · rw [(decr_cursor_multiline_fields _ _).1,
        (decr_cursor_multiline_fields _ _).2]
      exact boundary_le _ _ hbnd
    · rw [(decr_cursor_multiline_fields _ _).1,
        (decr_cursor_multiline_fields _ _).2]
      exact hbnd
    · exact (decr_cursor_multiline_fields _ _).1
    · exact (decr_cursor_multiline_fields _ _).2
  · exact ⟨⟨boundary_le _ _ hbnd, hbnd⟩, rfl, rfl⟩

theorem insert_new_line_inv {s s1 : TextInputComponent}
    (h : s.insert_new_line = some s1) : cursorInv s1 := by
  simp only [TextInputComponent.insert_new_line] at h
  split at h
  · cases h
  · rename_i m hins
    injection h with h
    subst h
    obtain ⟨hb, rfl⟩ := rust_insert_some hins
    have hinv0 :
        cursorInv { s with msg := insertCore s.msg s.cursor_position '\n' } :=
      ⟨boundary_le _ _ (insertCore_boundary _ _ _ hb),
        insertCore_boundary _ _ _ hb⟩
    have hIC := (incr_cursor_inv _ hinv0).1
    split
    · exact hIC
    · exact hIC

theorem delete_key_multiline_fields (s : TextInputComponent) :
    (s.delete_key_multiline).msg = s.msg
      ∧ (s.delete_key_multiline).cursor_position = s.cursor_position := by
  have hns :
      (if is_char_boundary s.msg s.cursor_position then some ([] : Msg)
       else none) ≠ some ['\n'] := by
    split
    · simp
    · simp
  simp only [TextInputComponent.delete_key_multiline, if_neg hns]
  trivial

theorem delete_key_inv {s s1 : TextInputComponent}
    (h : s.delete_key = some s1) : cursorInv s1 := by
  simp only [TextInputComponent.delete_key] at h
  split at h
  · cases h
  · rename_i m hrem
    injection h with h
    subst h
    obtain ⟨hb, hlt, rfl⟩ := rust_remove_some hrem
    exact ⟨boundary_le _ _ (removeCore_boundary _ _ hb),
      removeCore_boundary _ _ hb⟩

theorem multiline_backspace_fields {s s1 : TextInputComponent}
    (h : s.multiline_backspace = some s1) :
    s1.msg = s.msg ∧ s1.cursor_position = s.cursor_position := by
  simp only [TextInputComponent.multiline_backspace] at h
  split at h
  · split at h
    · cases h
    · rename_i sm hsub
      injection h with h
      subst h
      split
      · exact ⟨rfl, rfl⟩
      · exact ⟨rfl, rfl⟩
  · injection h with h
    subst h
    exact ⟨rfl, rfl⟩

theorem backspace_inv {s s1 : TextInputComponent} (hInv : cursorInv s)
    (h : s.backspace = some s1) : cursorInv s1 := by
  simp only [TextInputComponent.backspace] at h
  split at h
  · split at h
    · cases h
    · rename_i s2 hmid
      split at h
      · cases h
      · rename_i m hrem
        injection h with h
        subst h
        obtain ⟨hb, hlt, rfl⟩ := rust_remove_some hrem
        exact ⟨boundary_le _ _ (removeCore_boundary _ _ hb),
          removeCore_boundary _ _ hb⟩
  · injection h with h
    subst h
    exact hInv

theorem line_up_inv {s s1 : TextInputComponent}
    (h : s.line_up_cursor = some s1) : cursorInv s1 := by
  simp only [TextInputComponent.line_up_cursor] at h
  split at h
  · cases h
  · rename_i q hbump
    injection h with h
    subst h
    have hb := bumpToBoundary_boundary _ _ _ _ hbump
    split
    · exact ⟨boundary_le _ _ hb, hb⟩
    · exact ⟨boundary_le _ _ hb, hb⟩

theorem line_down_le {s s1 : TextInputComponent}
    (h : s.line_down_cursor = some s1) :
    s1.cursor_position ≤ byteLen s1.msg := by
  simp only [TextInputComponent.line_down_cursor] at h
  split at h
  · cases h
  · rename_i q hq
    injection h with h
    subst h
    have hqle : q ≤ byteLen s.msg := by
      split at hq
      · exact boundary_le _ _ (bumpToBoundary_boundary _ _ _ _ hq)
      · injection hq with hq
        omega
    split
    · split
      · exact hqle
      · exact hqle
    · exact hqle

/-- C10 (amended): `set_text`, `clear` and every key event except Down
keep the cursor at most `msg.len()` and on a UTF-8 character boundary
(stated for any run of the handler that returns, i.e. does not panic);
the Down key still keeps the cursor at most `msg.len()`, but its
fallback `cursor_position = msg.len().saturating_sub(1)` can land
inside a multi-byte character, off a boundary. -/
theorem textinput_ops_cursor_invariant (s : TextInputComponent)
    (cfg : KeyConfig) (e : KeyEvt) (h : cursorInv s) :
    (∀ m, cursorInv (s.set_text m)) ∧ cursorInv s.clear
    ∧ ∀ s1 st, s.event cfg e = some (s1, st) →
        s1.cursor_position ≤ byteLen s1.msg
          ∧ (cursorInv s1 ∨ e.code = KeyCode.down) := by
  refine ⟨fun m => ⟨Nat.zero_le _, boundary_zero m⟩,
    ⟨Nat.zero_le _, boundary_zero []⟩, ?_⟩
  intro s1 st hev
  simp only [TextInputComponent.event] at hev
  split at hev
  case isTrue hvis =>
    split at hev
    case isTrue hexit =>
      simp only [Option.some.injEq, Prod.mk.injEq] at hev
      obtain ⟨rfl, rfl⟩ := hev
      exact ⟨h.1, Or.inl h⟩
    case isFalse hexit =>
      split at hev
      case isTrue henter =>
        split at hev
        · cases hev
        · rename_i s2 hins
          simp only [Option.some.injEq, Prod.mk.injEq] at hev
          obtain ⟨rfl, rfl⟩ := hev
          have hi := insert_new_line_inv hins
          exact ⟨hi.1, Or.inl hi⟩
      case isFalse henter =>
        split at hev
        -- KeyCode.char c
        · rename_i c heq
          split at hev
          · split at hev
            · cases hev
            · rename_i m hins
              simp only [Option.some.injEq, Prod.mk.injEq] at hev
              obtain ⟨rfl, rfl⟩ := hev
              obtain ⟨hb, rfl⟩ := rust_insert_some hins
              have hinv0 :
                  cursorInv { s with
                    msg := insertCore s.msg s.cursor_position c } :=
                ⟨boundary_le _ _ (insertCore_boundary _ _ _ hb),
                  insertCore_boundary _ _ _ hb⟩
              have hi := (incr_cursor_inv _ hinv0).1
              exact ⟨hi.1, Or.inl hi⟩
          · simp only [Option.some.injEq, Prod.mk.injEq] at hev
            obtain ⟨rfl, rfl⟩ := hev
            exact ⟨h.1, Or.inl h⟩
        -- KeyCode.delete
        · split at hev
          · split at hev
            · cases hev
            · rename_i s2 hdel
              simp only [Option.some.injEq, Prod.mk.injEq] at hev
              obtain ⟨rfl, rfl⟩ := hev
              have hi := delete_key_inv hdel
              exact ⟨hi.1, Or.inl hi⟩
          · simp only [Option.some.injEq, Prod.mk.injEq] at hev
            obtain ⟨rfl, rfl⟩ := hev
            exact ⟨h.1, Or.inl h⟩
        -- KeyCode.backspace
        · split at hev
          · cases hev
          · rename_i s2 hbs
            simp only [Option.some.injEq, Prod.mk.injEq] at hev
            obtain ⟨rfl, rfl⟩ := hev
            have hi := backspace_inv h hbs
            exact ⟨hi.1, Or.inl hi⟩
        -- KeyCode.left
        · simp only [Option.some.injEq, Prod.mk.injEq] at hev
          obtain ⟨rfl, rfl⟩ := hev
          have hi := (decr_cursor_inv s).1
          exact ⟨hi.1, Or.inl hi⟩
        -- KeyCode.right
        · simp only [Option.some.injEq, Prod.mk.injEq] at hev
          obtain ⟨rfl, rfl⟩ := hev
          have hi := (incr_cursor_inv s h).1
          exact ⟨hi.1, Or.inl hi⟩
        -- KeyCode.up
        · split at hev
          · split at hev
            · cases hev
            · rename_i s2 hup
              simp only [Option.some.injEq, Prod.mk.injEq] at hev
              obtain ⟨rfl, rfl⟩ := hev
              have hi := line_up_inv hup
              exact ⟨hi.1, Or.inl hi⟩
          · simp only [Option.some.injEq, Prod.mk.injEq] at hev
            obtain ⟨rfl, rfl⟩ := hev
            exact ⟨h.1, Or.inl h⟩
        -- KeyCode.down
        · rename_i heq
          split at hev
          · split at hev
            · cases hev
            · rename_i s2 hdown
              simp only [Option.some.injEq, Prod.mk.injEq] at hev
              obtain ⟨rfl, rfl⟩ := hev
              exact ⟨line_down_le hdown, Or.inr heq⟩
          · simp only [Option.some.injEq, Prod.mk.injEq] at hev
            obtain ⟨rfl, rfl⟩ := hev
            exact ⟨h.1, Or.inl h⟩
        -- KeyCode.home
        · simp only [Option.some.injEq, Prod.mk.injEq] at hev
          obtain ⟨rfl, rfl⟩ := hev
          exact ⟨Nat.zero_le _, Or.inl ⟨Nat.zero_le _, boundary_zero _⟩⟩
        -- KeyCode.endKey
        · simp only [Option.some.injEq, Prod.mk.injEq] at hev
          obtain ⟨rfl, rfl⟩ := hev
          exact ⟨le_refl _, Or.inl ⟨le_refl _, boundary_byteLen _⟩⟩
        -- catch-all
        · simp only [Option.some.injEq, Prod.mk.injEq] at hev
          obtain ⟨rfl, rfl⟩ := hev
          exact ⟨h.1, Or.inl h⟩
  case isFalse hvis =>
    simp only [Option.some.injEq, Prod.mk.injEq] at hev
    obtain ⟨rfl, rfl⟩ := hev
    exact ⟨h.1, Or.inl h⟩

/-- C10 witness: the Right key on a visible single-line input `"a"`
with the cursor at 0 moves the cursor to 1, which satisfies the
invariant. -/
theorem textinput_ops_cursor_invariant_witness :
    ({ msg := ['a'], cursor_position := 1
       input_type := InputType.Singleline, visible := true
       cur_line := 0, scroll_top := 0, scroll_max := 0
       frame_height := 0, area_height := 0 } :
        TextInputComponent).cursor_position ≤
      byteLen ({ msg := ['a'], cursor_position := 1
                 input_type := InputType.Singleline, visible := true
                 cur_line := 0, scroll_top := 0, scroll_max := 0
                 frame_height := 0, area_height := 0 } :
          TextInputComponent).msg
    ∧ (cursorInv
        { msg := ['a'], cursor_position := 1
          input_type := InputType.Singleline, visible := true
          cur_line := 0, scroll_top := 0, scroll_max := 0
          frame_height := 0, area_height := 0 }
      ∨ ({ code := KeyCode.right, ctrl := false } : KeyEvt).code =
          KeyCode.down) :=
  (textinput_ops_cursor_invariant
    { msg := ['a'], cursor_position := 0
      input_type := InputType.Singleline, visible := true
      cur_line := 0, scroll_top := 0, scroll_max := 0
      frame_height := 0, area_height := 0 }
    { exit_popup := { code := KeyCode.esc, ctrl := false }
      enter := { code := KeyCode.enter, ctrl := false } }
    { code := KeyCode.right, ctrl := false } (by decide)).2.2
    { msg := ['a'], cursor_position := 1
      input_type := InputType.Singleline, visible := true
      cur_line := 0, scroll_top := 0, scroll_max := 0
      frame_height := 0, area_height := 0 }
    EventState.Consumed (by decide)

/-- C10 counterexample: the claim fails for the Down key. In the
multiline input `"ab\ncé"` (6 bytes, the last character two bytes wide)
with the cursor at the end (byte 6 — a valid boundary, so the invariant
holds before the event), the Down key's fallback
`cursor_position = msg.len().saturating_sub(1)` sets the cursor to byte
5, inside the two-byte character `é`: the event returns normally but
the resulting cursor is not on a UTF-8 character boundary. -/
theorem textinput_down_key_breaks_boundary :
    cursorInv
      { msg := ['a', 'b', '\n', 'c', 'é'], cursor_position := 6
        input_type := InputType.Multiline, visible := true
        cur_line := 0, scroll_top := 0, scroll_max := 0
        frame_height := 0, area_height := 0 }
    ∧ TextInputComponent.event
        { msg := ['a', 'b', '\n', 'c', 'é'], cursor_position := 6
          input_type := InputType.Multiline, visible := true
          cur_line := 0, scroll_top := 0, scroll_max := 0
          frame_height := 0, area_height := 0 }
        { exit_popup := { code := KeyCode.esc, ctrl := false }
          enter := { code := KeyCode.enter, ctrl := false } }
        { code := KeyCode.down, ctrl := false } =
      some
        ({ msg := ['a', 'b', '\n', 'c', 'é'], cursor_position := 5
           input_type := InputType.Multiline, visible := true
           cur_line := 0, scroll_top := 0, scroll_max := 0
           frame_height := 0, area_height := 0 },
          EventState.Consumed)
    ∧ ¬cursorInv
        { msg := ['a', 'b', '\n', 'c', 'é'], cursor_position := 5
          input_type := InputType.Multiline, visible := true
          cur_line := 0, scroll_top := 0, scroll_max := 0
          frame_height := 0, area_height := 0 } := by
  refine ⟨by decide, by decide, by decide⟩

end Gitui
